import Mathlib

/-!
Shallow embedding of the metadata retrieval and caching subsystem of
spotify_manage (src/main.rs).

Modelling decisions, all driven by the source:
  - Rust i64 fields are modelled as Int (the embedded code performs no
    arithmetic on them that could wrap).
  - SystemTime is modelled as nanoseconds since the Unix epoch (Nat);
    SystemTime::elapsed fails exactly when the stored instant lies in the
    future of now, mirroring SystemTimeError.
  - The external world (D-Bus connection outcome, the metadata and
    position property replies, and whether the cache-file write succeeds)
    is an explicit World record, and every bus interaction is recorded in
    a list of BusEvent values so that cache-hit / cache-miss traffic can
    be stated and proved.
  - serde_json serialisation of the Metadata struct is modelled at the
    JSON-value level (an object with the five field names; SystemTime
    serialises as its secs_since_epoch / nanos_since_epoch pair, exactly
    as serde does).  A cache file is either absent, unparseable bytes, or
    a parsed JSON value.
  - A Rust panic (the out-of-bounds index on the artist array) is a
    distinct Outcome constructor: it is neither a value nor a Result
    error.
  - f64 is modelled as an exact value carrier (a rational, or one of the
    IEEE-754 specials inf / -inf / NaN).  Finite division is exact
    division; every concrete quotient appearing in a theorem below
    (50000/200000 = 0.25) is exactly representable in binary64, so the
    model agrees with IEEE evaluation at every input a theorem touches,
    and division by zero follows the IEEE sign rules (signed zero is not
    distinguished; no theorem depends on it).
-/

namespace SpotifyManage

/-- The strongly typed record of src/main.rs lines 8-15.  `timestamp` is
nanoseconds since the Unix epoch. -/
structure Metadata where
  title : String
  artist : String
  length : Int
  position : Int
  timestamp : Nat
deriving DecidableEq

/-- A zvariant::Value as far as this program inspects one: a string, an
i64, an array of values, or anything else. -/
inductive ZValue where
  | str (s : String)
  | int64 (n : Int)
  | array (elems : List ZValue)
  | other

/-- The zvariant::Dict returned by the metadata property: an ordered
string-keyed association list. -/
abbrev ZDict := List (String × ZValue)

/-- Key lookup in a Dict (first matching entry). -/
def zdictGet : ZDict → String → Option ZValue
  | [], _ => none
  | (k, v) :: rest, key => if k = key then some v else zdictGet rest key

/-- The error kinds the embedded functions can produce (Box of dyn Error
in the source). -/
inductive Err where
  | zbus (msg : String)
  | incorrectType
  | invalidData (msg : String)
  | systemTime
  | notFound
  | corrupt
  | io
deriving DecidableEq

/-- Result of running a fallible piece of the program: a value, an error
carried in the Result, or a Rust panic (which is neither). -/
inductive Outcome (α : Type) where
  | ok (a : α)
  | err (e : Err)
  | panic
deriving DecidableEq

/-- True exactly when the outcome is a Result-level error (a panic is
not). -/
def Outcome.isErr : Outcome α → Bool
  | .err _ => true
  | _ => false

/-- True exactly when the outcome is a value. -/
def Outcome.isOkB : Outcome α → Bool
  | .ok _ => true
  | _ => false

/-- True exactly when an Except is a value. -/
def exceptOk : Except Err α → Bool
  | .ok _ => true
  | .error _ => false

/-- Dict::get narrowed to str (src line 82): absent key gives none, a
present non-string value is a zvariant type error. -/
def dictGetStr (d : ZDict) (k : String) : Except Err (Option String) :=
  match zdictGet d k with
  | none => .ok none
  | some (.str s) => .ok (some s)
  | some _ => .error .incorrectType

/-- Dict::get narrowed to Array (src line 84). -/
def dictGetArray (d : ZDict) (k : String) : Except Err (Option (List ZValue)) :=
  match zdictGet d k with
  | none => .ok none
  | some (.array vs) => .ok (some vs)
  | some _ => .error .incorrectType

/-- Dict::get narrowed to Value (src line 91): narrowing to Value always
succeeds when the key is present. -/
def dictGetValue (d : ZDict) (k : String) : Except Err (Option ZValue) :=
  .ok (zdictGet d k)

/-- Value::downcast_ref to str. -/
def ZValue.downcastStr : ZValue → Option String
  | .str s => some s
  | _ => none

/-- Value::downcast_ref to i64. -/
def ZValue.downcastI64 : ZValue → Option Int
  | .int64 n => some n
  | _ => none

/-- JSON values as serde_json produces and consumes them for this
program (only the shapes the Metadata record can involve). -/
inductive Json where
  | jstr (s : String)
  | jnum (n : Int)
  | jobj (fields : List (String × Json))
  | jother

/-- Field lookup in a JSON object body. -/
def jsonLookup : List (String × Json) → String → Option Json
  | [], _ => none
  | (k, v) :: rest, key => if k = key then some v else jsonLookup rest key

/-- serde serialisation of SystemTime: the secs/nanos pair. -/
def encodeTimestamp (ts : Nat) : Json :=
  .jobj [("secs_since_epoch", .jnum (Int.ofNat (ts / 1000000000))),
         ("nanos_since_epoch", .jnum (Int.ofNat (ts % 1000000000)))]

/-- serde deserialisation of SystemTime: secs and nanos must be present
non-negative integers. -/
def decodeTimestamp : Json → Option Nat
  | .jobj fs =>
    match jsonLookup fs "secs_since_epoch", jsonLookup fs "nanos_since_epoch" with
    | some (.jnum s), some (.jnum n) =>
      if 0 ≤ s ∧ 0 ≤ n then some (s.toNat * 1000000000 + n.toNat) else none
    | _, _ => none
  | _ => none

/-- Derived Serialize for Metadata (src line 8): a JSON object with the
five field names. -/
def encodeMetadata (m : Metadata) : Json :=
  .jobj [("title", .jstr m.title),
         ("artist", .jstr m.artist),
         ("length", .jnum m.length),
         ("position", .jnum m.position),
         ("timestamp", encodeTimestamp m.timestamp)]

/-- Derived Deserialize for Metadata: every field must be present with
the right shape, else the whole parse fails. -/
def decodeMetaJson (j : Json) : Option Metadata :=
  match j with
  | .jobj fs =>
    match jsonLookup fs "title", jsonLookup fs "artist", jsonLookup fs "length",
          jsonLookup fs "position", jsonLookup fs "timestamp" with
    | some (.jstr t), some (.jstr a), some (.jnum l), some (.jnum p), some tj =>
      (decodeTimestamp tj).map (fun ts => ⟨t, a, l, p, ts⟩)
    | _, _, _, _, _ => none
  | _ => none

/-- The state of /tmp/spotify_manage_cache: absent, bytes that do not
parse as JSON, or a JSON value. -/
inductive CacheFile where
  | absent
  | corrupt
  | json (j : Json)

/-- fs::write of the serialised record (src lines 106-111): the file now
holds exactly the encoding of m. -/
def cache_write (m : Metadata) : CacheFile := .json (encodeMetadata m)

/-- get_cache (src lines 51-57): read the fixed path and parse it with
serde_json. -/
def get_cache : CacheFile → Except Err Metadata
  | .absent => .error .notFound
  | .corrupt => .error .corrupt
  | .json j =>
    match decodeMetaJson j with
    | some m => .ok m
    | none => .error .corrupt

/-- SystemTime::elapsed at instant `now` for a stored instant `ts`:
fails with SystemTimeError when ts is in the future. -/
def elapsed (now ts : Nat) : Except Err Nat :=
  if ts ≤ now then .ok (now - ts) else .error .systemTime

/-- The freshness test of src line 68: elapsed()?.as_secs() < 3, where
as_secs truncates nanoseconds to whole seconds. -/
def freshTest (now ts : Nat) : Except Err Bool :=
  (elapsed now ts).map (fun d => decide (d / 1000000000 < 3))

/-- Observable bus interactions. -/
inductive BusEvent where
  | connect
  | newProxy
  | fetchMetadata
  | fetchPosition
deriving DecidableEq

/-- The external world of one invocation: the cache file, the current
instant, whether the session connection can be opened, the two property
replies the player would give, and whether the cache write succeeds. -/
structure World where
  cache : CacheFile
  now : Nat
  connectOk : Bool
  metadataResp : Except Err ZDict
  positionResp : Except Err Int
  writeOk : Bool

/-- get_proxy (src lines 44-49): open a session connection, then build
the proxy on it. -/
def get_proxy (w : World) : Except Err Unit × List BusEvent :=
  if w.connectOk then (.ok (), [.connect, .newProxy])
  else (.error (.zbus "connection failed"), [.connect])

/-- Lines 82-94: extract title, artist and length from the raw mapping.
The artist path indexes element 0 of the array, which panics when the
array is empty. -/
def decodeFields (d : ZDict) : Outcome (String × String × Int) :=
  match dictGetStr d "xesam:title" with
  | .error e => .err e
  | .ok none => .err (.invalidData "Invalid bus data")
  | .ok (some title) =>
    match dictGetArray d "xesam:artist" with
    | .error e => .err e
    | .ok none => .err (.invalidData "Invalid dbus data")
    | .ok (some elems) =>
      match elems with
      | [] => .panic
      | v :: _ =>
        match v.downcastStr with
        | none => .err (.invalidData "Invalid dbus data")
        | some artist =>
          match dictGetValue d "mpris:length" with
          | .error e => .err e
          | .ok none => .err (.invalidData "Invalid dbus data")
          | .ok (some lv) =>
            match lv.downcastI64 with
            | none => .err (.invalidData "Invalid dbus data")
            | some length => .ok (title, artist, length)

/-- The pure decode of src lines 82-104: the raw mapping plus the
separately fetched position and the capture instant give a Metadata
record (or fail, or panic). -/
def decode_metadata (d : ZDict) (position : Int) (now : Nat) : Outcome Metadata :=
  match decodeFields d with
  | .ok (t, a, l) => .ok ⟨t, a, l, position, now⟩
  | .err e => .err e
  | .panic => .panic

/-- The cache-miss path of get_metadata (src lines 79-114): fetch the
metadata property, decode the three fields, fetch position, stamp with
now, write the cache file, return the record. -/
def metadataFetchPath (w : World) : Outcome Metadata × List BusEvent × CacheFile :=
  match w.metadataResp with
  | .error e => (.err e, [.fetchMetadata], w.cache)
  | .ok d =>
    match decodeFields d with
    | .err e => (.err e, [.fetchMetadata], w.cache)
    | .panic => (.panic, [.fetchMetadata], w.cache)
    | .ok (t, a, l) =>
      match w.positionResp with
      | .error e => (.err e, [.fetchMetadata, .fetchPosition], w.cache)
      | .ok pos =>
        let m : Metadata := ⟨t, a, l, pos, w.now⟩
        if w.writeOk then
          (.ok m, [.fetchMetadata, .fetchPosition], cache_write m)
        else
          (.err .io, [.fetchMetadata, .fetchPosition], w.cache)

/-- Lines 66-75: consult the cache; a readable fresh record is returned,
a readable stale record falls through, an unreadable cache falls
through, and a SystemTimeError from elapsed() propagates. -/
def cacheCheck (w : World) : Except Err (Option Metadata) :=
  match get_cache w.cache with
  | .ok m =>
    match freshTest w.now m.timestamp with
    | .ok true => .ok (some m)
    | .ok false => .ok none
    | .error e => .error e
  | .error _ => .ok none

/-- The body of get_metadata after the proxy is resolved: cache check,
then the fetch path on a miss.  evs0 are the events the proxy
resolution already produced. -/
def getMetadataWith (evs0 : List BusEvent) (w : World) :
    Outcome Metadata × List BusEvent × CacheFile :=
  match cacheCheck w with
  | .error e => (.err e, evs0, w.cache)
  | .ok (some m) => (.ok m, evs0, w.cache)
  | .ok none =>
    match metadataFetchPath w with
    | (r, evs, c) => (r, evs0 ++ evs, c)

/-- get_metadata (src lines 59-116).  The proxy argument mirrors the
Option of a PlayerProxy: when None, get_proxy runs first — before the
cache is consulted. -/
def get_metadata (proxy : Option Unit) (w : World) :
    Outcome Metadata × List BusEvent × CacheFile :=
  match proxy with
  | some _ => getMetadataWith [] w
  | none =>
    match get_proxy w with
    | (.ok _, evs) => getMetadataWith evs w
    | (.error e, evs) => (.err e, evs, w.cache)

/-- An f64 value: exact finite value or an IEEE-754 special.  Finite
arithmetic is exact; every finite quotient a theorem below evaluates is
exactly representable in binary64, so the model agrees with IEEE
evaluation there.  Signed zero is not distinguished. -/
inductive F64 where
  | finite (q : ℚ)
  | inf
  | negInf
  | nan
deriving DecidableEq

/-- The `as f64` cast of an i64 (exact for every value the theorems
touch). -/
def F64.ofInt (n : Int) : F64 := .finite (n : ℚ)

/-- IEEE-754 division on the model. -/
def F64.div : F64 → F64 → F64
  | .nan, _ => .nan
  | _, .nan => .nan
  | .inf, .finite b => if b < 0 then .negInf else .inf
  | .negInf, .finite b => if b < 0 then .inf else .negInf
  | .inf, _ => .nan
  | .negInf, _ => .nan
  | .finite _, .inf => .finite 0
  | .finite _, .negInf => .finite 0
  | .finite a, .finite b =>
    if b = 0 then
      if 0 < a then .inf else if a < 0 then .negInf else .nan
    else .finite (a / b)

/-- get_song_progress (src lines 118-125): position as f64 divided by
length as f64, with no zero-length guard. -/
def get_song_progress (w : World) : Outcome F64 × List BusEvent × CacheFile :=
  match get_metadata none w with
  | (.ok m, evs, c) => (.ok (F64.div (F64.ofInt m.position) (F64.ofInt m.length)), evs, c)
  | (.err e, evs, c) => (.err e, evs, c)
  | (.panic, evs, c) => (.panic, evs, c)

/-- get_song_name (src lines 127-136): format the record from the
facade; on a facade Err, fall back to a direct cache read.  A panic is
not an Err and is not caught. -/
def get_song_name (w : World) : Outcome String × List BusEvent × CacheFile :=
  match get_metadata none w with
  | (.ok m, evs, c) => (.ok (m.artist ++ " - " ++ m.title), evs, c)
  | (.panic, evs, c) => (.panic, evs, c)
  | (.err _, evs, c) =>
    match get_cache c with
    | .ok m => (.ok (m.artist ++ " - " ++ m.title), evs, c)
    | .error e => (.err e, evs, c)

/-- The title key is absent or holds a non-string value. -/
def titleBad (d : ZDict) : Bool :=
  match zdictGet d "xesam:title" with
  | some (.str _) => false
  | _ => true

/-- The artist key is absent or holds a non-array value. -/
def artistBad (d : ZDict) : Bool :=
  match zdictGet d "xesam:artist" with
  | some (.array _) => false
  | _ => true

/-- The artist key holds a non-empty array whose first element is not a
string. -/
def artistElemBad (d : ZDict) : Bool :=
  match zdictGet d "xesam:artist" with
  | some (.array (v :: _)) => !(v.downcastStr).isSome
  | _ => false

/-- The artist key holds an empty array. -/
def artistEmpty (d : ZDict) : Bool :=
  match zdictGet d "xesam:artist" with
  | some (.array []) => true
  | _ => false

/-- The length key is absent or holds a non-i64 value. -/
def lengthBad (d : ZDict) : Bool :=
  match zdictGet d "mpris:length" with
  | some (.int64 _) => false
  | _ => true

/-! Concrete inputs used by counterexamples and witnesses. -/

/-- A zero-length record with positive position (C1). -/
def mZeroLen : Metadata := ⟨"t", "a", 0, 50000, 1000000000⟩

/-- A world whose cache freshly holds `mZeroLen` (C1). -/
def wZeroLen : World :=
  { cache := cache_write mZeroLen, now := 1000000000, connectOk := true,
    metadataResp := .error (.zbus "unused"), positionResp := .error (.zbus "unused"),
    writeOk := true }

/-- A well-formed record (C1 witness). -/
def mQuarter : Metadata := ⟨"One More Time", "Daft Punk", 200000, 50000, 1000000000⟩

/-- A world whose cache freshly holds `mQuarter` (C1 witness). -/
def wQuarter : World :=
  { cache := cache_write mQuarter, now := 1000000000, connectOk := true,
    metadataResp := .error (.zbus "unused"), positionResp := .error (.zbus "unused"),
    writeOk := true }

/-- A cached record (C2). -/
def mFresh : Metadata := ⟨"Song", "Artist", 180000000, 90000000, 2000000000⟩

/-- A world whose cache freshly holds `mFresh` (C2). -/
def wFresh : World :=
  { cache := cache_write mFresh, now := 2000000000, connectOk := true,
    metadataResp := .error (.zbus "unused"), positionResp := .error (.zbus "unused"),
    writeOk := true }

/-- A fully valid raw mapping (C3 witness). -/
def dValid : ZDict :=
  [("xesam:title", .str "One More Time"),
   ("xesam:artist", .array [.str "Daft Punk"]),
   ("mpris:length", .int64 320000000)]

/-- A mapping with the length key absent and an empty artist array (C4
counterexample). -/
def dNoLenEmptyArtist : ZDict :=
  [("xesam:title", .str "t"), ("xesam:artist", .array [])]

/-- A mapping with a wrong-typed (non-string) title (C4 witness). -/
def dBadTitle : ZDict :=
  [("xesam:title", .int64 7),
   ("xesam:artist", .array [.str "a"]),
   ("mpris:length", .int64 5)]

/-- A world that would serve `dBadTitle` on a cache miss (C4 witness). -/
def wBadTitle : World :=
  { cache := .absent, now := 0, connectOk := true,
    metadataResp := .ok dBadTitle, positionResp := .ok 0, writeOk := true }

/-- A valid mapping carrying a negative length (C5 counterexample). -/
def dNegLen : ZDict :=
  [("xesam:title", .str "t"),
   ("xesam:artist", .array [.str "a"]),
   ("mpris:length", .int64 (-7))]

/-- A record with negative length and position (C5 counterexample). -/
def mNeg : Metadata := ⟨"t", "a", -7, -50, 0⟩

/-- A stale cached record (C6 witness): 10 s older than `wStale.now`. -/
def mStale : Metadata := ⟨"Old", "Older", 1, 1, 10000000000⟩

/-- A world whose cache holds the 10 s old `mStale` (C6 witness). -/
def wStale : World :=
  { cache := cache_write mStale, now := 20000000000, connectOk := true,
    metadataResp := .ok dValid, positionResp := .ok 12345, writeOk := true }

/-- A cached record lying 1 s in the future of `wFuture.now` (C8, C10). -/
def mFuture : Metadata := ⟨"One More Time", "Daft Punk", 320000000, 1000, 2000000000⟩

/-- A world whose cache holds the future-stamped `mFuture` (C8, C10). -/
def wFuture : World :=
  { cache := cache_write mFuture, now := 1000000000, connectOk := true,
    metadataResp := .ok dValid, positionResp := .ok 12345, writeOk := true }

/-- A world with an absent cache file (C10 witness). -/
def wNoCache : World :=
  { cache := .absent, now := 1000000000, connectOk := true,
    metadataResp := .ok dValid, positionResp := .ok 12345, writeOk := true }

/-- A mapping whose three required fields hold a valid title, an empty
string-list artist and a valid length (C9). -/
def dEmptyArtist : ZDict :=
  [("xesam:title", .str "One More Time"),
   ("xesam:artist", .array []),
   ("mpris:length", .int64 320000000)]

/-! Helper lemmas shared by the claim theorems. -/

lemma decodeTimestamp_encode (ts : Nat) :
    decodeTimestamp (encodeTimestamp ts) = some ts := by
  simp [decodeTimestamp, encodeTimestamp, jsonLookup]
  omega

lemma metadata_json_roundtrip (m : Metadata) :
    decodeMetaJson (encodeMetadata m) = some m := by
  simp [decodeMetaJson, encodeMetadata, jsonLookup, decodeTimestamp_encode]

lemma cache_roundtrip_aux (m : Metadata) : get_cache (cache_write m) = .ok m := by
  simp [get_cache, cache_write, metadata_json_roundtrip]

lemma freshTest_true (now ts : Nat) (hts : ts ≤ now) (hlt : now - ts < 3000000000) :
    freshTest now ts = .ok true := by
  unfold freshTest elapsed
  rw [if_pos hts]
  have hd : decide ((now - ts) / 1000000000 < 3) = true := decide_eq_true (by omega)
  simp [Except.map, hd]

lemma freshTest_false (now ts : Nat) (hts : ts ≤ now) (hge : 3000000000 ≤ now - ts) :
    freshTest now ts = .ok false := by
  unfold freshTest elapsed
  rw [if_pos hts]
  have hd : decide ((now - ts) / 1000000000 < 3) = false := decide_eq_false (by omega)
  simp [Except.map, hd]

lemma freshTest_future (now ts : Nat) (h : now < ts) :
    freshTest now ts = .error .systemTime := by
  unfold freshTest elapsed
  rw [if_neg (by omega)]
  rfl

lemma cacheCheck_fresh (w : World) (m : Metadata)
    (hc : get_cache w.cache = .ok m)
    (hts : m.timestamp ≤ w.now)
    (hlt : w.now - m.timestamp < 3000000000) :
    cacheCheck w = .ok (some m) := by
  simp [cacheCheck, hc, freshTest_true w.now m.timestamp hts hlt]

lemma cacheCheck_stale (w : World) (m : Metadata)
    (hc : get_cache w.cache = .ok m)
    (hts : m.timestamp ≤ w.now)
    (hge : 3000000000 ≤ w.now - m.timestamp) :
    cacheCheck w = .ok none := by
  simp [cacheCheck, hc, freshTest_false w.now m.timestamp hts hge]

lemma cacheCheck_future (w : World) (m : Metadata)
    (hc : get_cache w.cache = .ok m)
    (hfut : w.now < m.timestamp) :
    cacheCheck w = .error .systemTime := by
  simp [cacheCheck, hc, freshTest_future w.now m.timestamp hfut]

lemma cacheCheck_unreadable (w : World) (e : Err)
    (hc : get_cache w.cache = .error e) :
    cacheCheck w = .ok none := by
  simp [cacheCheck, hc]

lemma isErr_exists {α : Type} (o : Outcome α) (h : o.isErr = true) :
    ∃ e, o = .err e := by
  cases o <;> simp_all [Outcome.isErr]

lemma metadataFetchPath_mem (w : World) :
    BusEvent.fetchMetadata ∈ (metadataFetchPath w).2.1 := by
  cases hm : w.metadataResp with
  | error e => simp [metadataFetchPath, hm]
  | ok d =>
    cases hd : decodeFields d with
    | ok r =>
      obtain ⟨t, a, l⟩ := r
      cases hp : w.positionResp with
      | error e => simp [metadataFetchPath, hm, hd, hp]
      | ok pos =>
        cases hw : w.writeOk <;> simp [metadataFetchPath, hm, hd, hp, hw]
    | err e => simp [metadataFetchPath, hm, hd]
    | panic => simp [metadataFetchPath, hm, hd]

lemma decodeFields_ok_of (d : ZDict) (t a : String) (rest : List ZValue) (l : Int)
    (hT : zdictGet d "xesam:title" = some (.str t))
    (hA : zdictGet d "xesam:artist" = some (.array (.str a :: rest)))
    (hL : zdictGet d "mpris:length" = some (.int64 l)) :
    decodeFields d = .ok (t, a, l) := by
  unfold decodeFields dictGetStr dictGetArray dictGetValue
  rw [hT, hA, hL]
  rfl

lemma decodeFields_isErr (d : ZDict)
    (h : (titleBad d || artistBad d || artistElemBad d || lengthBad d) = true)
    (hne : artistEmpty d = false) :
    (decodeFields d).isErr = true := by
  cases hT : zdictGet d "xesam:title" with
  | none => simp [decodeFields, dictGetStr, hT, Outcome.isErr]
  | some vT =>
    cases vT with
    | str s =>
      cases hA : zdictGet d "xesam:artist" with
      | none => simp [decodeFields, dictGetStr, dictGetArray, hT, hA, Outcome.isErr]
      | some vA =>
        cases vA with
        | array vs =>
          cases vs with
          | nil =>
            exfalso
            simp [artistEmpty, hA] at hne
          | cons v rest =>
            cases hv : v.downcastStr with
            | none =>
              simp [decodeFields, dictGetStr, dictGetArray, hT, hA, hv, Outcome.isErr]
            | some a =>
              cases hL : zdictGet d "mpris:length" with
              | none =>
                simp [decodeFields, dictGetStr, dictGetArray, dictGetValue,
                      hT, hA, hv, hL, Outcome.isErr]
              | some vL =>
                cases vL with
                | int64 n =>
                  exfalso
                  simp [titleBad, artistBad, artistElemBad, lengthBad,
                        hT, hA, hL, hv] at h
                | str s2 =>
                  simp [decodeFields, dictGetStr, dictGetArray, dictGetValue,
                        hT, hA, hv, hL, ZValue.downcastI64, Outcome.isErr]
                | array a2 =>
                  simp [decodeFields, dictGetStr, dictGetArray, dictGetValue,
                        hT, hA, hv, hL, ZValue.downcastI64, Outcome.isErr]
                | other =>
                  simp [decodeFields, dictGetStr, dictGetArray, dictGetValue,
                        hT, hA, hv, hL, ZValue.downcastI64, Outcome.isErr]
        | str s2 => simp [decodeFields, dictGetStr, dictGetArray, hT, hA, Outcome.isErr]
        | int64 n => simp [decodeFields, dictGetStr, dictGetArray, hT, hA, Outcome.isErr]
        | other => simp [decodeFields, dictGetStr, dictGetArray, hT, hA, Outcome.isErr]
    | int64 n => simp [decodeFields, dictGetStr, hT, Outcome.isErr]
    | array a => simp [decodeFields, dictGetStr, hT, Outcome.isErr]
    | other => simp [decodeFields, dictGetStr, hT, Outcome.isErr]

lemma get_metadata_none_conn (w : World) (hconn : w.connectOk = true) :
    get_metadata none w = getMetadataWith [.connect, .newProxy] w := by
  simp [get_metadata, get_proxy, hconn]

lemma getMetadataWith_cache_unchanged (evs0 : List BusEvent) (w : World) (d : ZDict)
    (hm : w.metadataResp = .ok d) (hbad : (decodeFields d).isErr = true) :
    (getMetadataWith evs0 w).2.2 = w.cache := by
  obtain ⟨e, he⟩ := isErr_exists _ hbad
  cases hcc : cacheCheck w with
  | error e2 => simp [getMetadataWith, hcc]
  | ok om =>
    cases om with
    | some m => simp [getMetadataWith, hcc]
    | none => simp [getMetadataWith, hcc, metadataFetchPath, hm, he]

lemma get_metadata_cache_unchanged_of_badFields (w : World) (d : ZDict)
    (hm : w.metadataResp = .ok d) (hbad : (decodeFields d).isErr = true) :
    (get_metadata none w).2.2 = w.cache := by
  cases hcn : w.connectOk with
  | false => simp [get_metadata, get_proxy, hcn]
  | true =>
    rw [get_metadata_none_conn w hcn]
    exact getMetadataWith_cache_unchanged _ w d hm hbad

/-! Claim theorems. -/

/-- Claim C1 counterexample: with a fresh cached record of length 0 and
position 50000, get_song_progress returns Ok(inf); it does not fail with
any divide-by-zero-class error (the claim asserts it does). -/
theorem C1_counterexample :
    (get_song_progress wZeroLen).1 = .ok .inf ∧
    (get_song_progress wZeroLen).1.isErr = false := ⟨rfl, rfl⟩

/-- Claim C1 (amended): whenever the facade yields a record,
get_song_progress is the f64 quotient position/length: for length 0 it
silently returns inf, NaN or -inf according to the sign of position
(never an error), and for position 50000 and length 200000 it returns
exactly 0.25. -/
theorem C1_theorem (w : World) (m : Metadata)
    (h : (get_metadata none w).1 = .ok m) :
    (m.length = 0 → 0 < m.position → (get_song_progress w).1 = .ok .inf) ∧
    (m.length = 0 → m.position = 0 → (get_song_progress w).1 = .ok .nan) ∧
    (m.length = 0 → m.position < 0 → (get_song_progress w).1 = .ok .negInf) ∧
    (m.length = 200000 → m.position = 50000 →
      (get_song_progress w).1 = .ok (.finite (1 / 4))) := by
  have hsp : (get_song_progress w).1 =
      .ok (F64.div (F64.ofInt m.position) (F64.ofInt m.length)) := by
    rcases hw : get_metadata none w with ⟨r, evs, c⟩
    rw [hw] at h
    have hr : r = .ok m := by simpa using h
    simp [get_song_progress, hw, hr]
  refine ⟨?_, ?_, ?_, ?_⟩
  · intro hl hp
    have hq : (0 : ℚ) < (m.position : ℚ) := by exact_mod_cast hp
    rw [hsp, hl]
    simp [F64.div, F64.ofInt, hq]
  · intro hl hp
    rw [hsp, hl, hp]
    simp [F64.div, F64.ofInt]
  · intro hl hp
    have hq : (m.position : ℚ) < 0 := by exact_mod_cast hp
    rw [hsp, hl]
    simp [F64.div, F64.ofInt, hq, not_lt.mpr (le_of_lt hq)]
  · intro hl hp
    rw [hsp, hl, hp]
    norm_num [F64.div, F64.ofInt]

/-- Claim C1 witness: a concrete fresh cache with position 50000 and
length 200000 gives progress exactly 1/4. -/
theorem C1_witness :
    (get_metadata none wQuarter).1 = .ok mQuarter ∧
    (get_song_progress wQuarter).1 = .ok (.finite (1 / 4)) :=
  ⟨rfl, (C1_theorem wQuarter mQuarter rfl).2.2.2 rfl rfl⟩

/-- Claim C2 counterexample: on a fresh-cache hit with no proxy
supplied, get_metadata returns the cached record but has already opened
a session bus connection and built a proxy (the claim asserts no bus
connection or proxy is used). -/
theorem C2_counterexample :
    (get_metadata none wFresh).1 = .ok mFresh ∧
    (get_metadata none wFresh).2.1 = [.connect, .newProxy] := ⟨rfl, rfl⟩

/-- Claim C2 (amended): on a fresh-cache hit the cached record is
returned, the cache file is untouched and no metadata fetch and no
position fetch occurs; however when no proxy is supplied the bus
connection and proxy are still created (before the cache is consulted),
and only with a caller-supplied proxy is there zero bus interaction. -/
theorem C2_theorem (w : World) (m : Metadata)
    (hc : get_cache w.cache = .ok m)
    (hts : m.timestamp ≤ w.now)
    (hlt : w.now - m.timestamp < 3000000000)
    (hconn : w.connectOk = true) :
    (get_metadata none w).1 = .ok m ∧
    (get_metadata none w).2.1 = [.connect, .newProxy] ∧
    (get_metadata none w).2.2 = w.cache ∧
    get_metadata (some ()) w = (.ok m, [], w.cache) := by
  have hcc := cacheCheck_fresh w m hc hts hlt
  have h1 : getMetadataWith [BusEvent.connect, BusEvent.newProxy] w
      = (.ok m, [BusEvent.connect, BusEvent.newProxy], w.cache) := by
    simp [getMetadataWith, hcc]
  have h2 : getMetadataWith [] w = (.ok m, [], w.cache) := by
    simp [getMetadataWith, hcc]
  rw [get_metadata_none_conn w hconn, h1]
  exact ⟨rfl, rfl, rfl, by simp [get_metadata, h2]⟩

/-- Claim C2 witness: the amended statement evaluated on a concrete
fresh cache. -/
theorem C2_witness :
    mFresh.timestamp ≤ wFresh.now ∧
    (get_metadata none wFresh).1 = .ok mFresh ∧
    (get_metadata none wFresh).2.2 = wFresh.cache := by
  have h := C2_theorem wFresh mFresh rfl (by decide) (by decide) rfl
  exact ⟨by decide, h.1, h.2.2.1⟩

/-- Claim C3: a raw mapping holding a string title, a non-empty
string-list artist and an i64 length, together with a position and the
capture instant, decodes to exactly those field values with the first
artist element and timestamp now. -/
theorem C3_theorem (d : ZDict) (t : String) (arts : List String) (l pos : Int) (now : Nat)
    (hT : zdictGet d "xesam:title" = some (.str t))
    (hA : zdictGet d "xesam:artist" = some (.array (arts.map ZValue.str)))
    (hne : arts ≠ [])
    (hL : zdictGet d "mpris:length" = some (.int64 l)) :
    decode_metadata d pos now =
      .ok { title := t, artist := arts.head hne, length := l,
            position := pos, timestamp := now } := by
  cases arts with
  | nil => exact absurd rfl hne
  | cons a rest =>
    have hA2 : zdictGet d "xesam:artist"
        = some (.array (.str a :: rest.map ZValue.str)) := by simpa using hA
    simp [decode_metadata, decodeFields_ok_of d t a (rest.map ZValue.str) l hT hA2 hL]

/-- Claim C3 witness: a concrete valid mapping decodes to exactly its
field values. -/
theorem C3_witness :
    zdictGet dValid "xesam:title" = some (.str "One More Time") ∧
    decode_metadata dValid 7 42 =
      .ok ⟨"One More Time", "Daft Punk", 320000000, 7, 42⟩ := by
  have h := C3_theorem dValid "One More Time" ["Daft Punk"] 320000000 7 42
    rfl rfl (by simp) rfl
  exact ⟨rfl, h⟩

/-- Claim C4 counterexample: a mapping whose required length key is
absent but whose artist key holds an empty array makes the decoder
panic at the index [0], not fail with a DecodeError, although the
claim asserts every mapping with a missing required key fails with a
DecodeError. -/
theorem C4_counterexample :
    decode_metadata dNoLenEmptyArtist 0 0 = .panic ∧
    (decode_metadata dNoLenEmptyArtist 0 0).isErr = false := ⟨rfl, rfl⟩

/-- Claim C4 (amended): if any required key is absent or wrongly typed
and the artist key does not hold an empty array (that case panics
instead), decoding fails with a decode error, no record is produced,
and the cache file is never written. -/
theorem C4_theorem (d : ZDict) (pos : Int) (now : Nat)
    (h : (titleBad d || artistBad d || artistElemBad d || lengthBad d) = true)
    (hne : artistEmpty d = false) :
    (decode_metadata d pos now).isErr = true ∧
    (∀ w : World, w.metadataResp = .ok d → (get_metadata none w).2.2 = w.cache) := by
  have hf := decodeFields_isErr d h hne
  obtain ⟨e, he⟩ := isErr_exists _ hf
  constructor
  · simp [decode_metadata, he, Outcome.isErr]
  · intro w hm
    exact get_metadata_cache_unchanged_of_badFields w d hm hf

/-- Claim C4 witness: a wrong-typed title makes decoding fail and
leaves the cache file untouched. -/
theorem C4_witness :
    titleBad dBadTitle = true ∧
    (decode_metadata dBadTitle 0 0).isErr = true ∧
    (get_metadata none wBadTitle).2.2 = wBadTitle.cache := by
  have h := C4_theorem dBadTitle 0 0 rfl rfl
  exact ⟨rfl, h.1, h.2 wBadTitle rfl⟩

/-- Claim C5 counterexample: the decoder happily constructs a Metadata
record with negative length and negative position, although the claim
asserts every constructed record has length ≥ 0 and position ≥ 0. -/
theorem C5_counterexample :
    decode_metadata dNegLen (-50) 0 = .ok mNeg ∧
    mNeg.length < 0 ∧ mNeg.position < 0 := ⟨rfl, by decide, by decide⟩

/-- Claim C5 (amended): decoder-constructed and cache-deserialized
records carry the input length and position values verbatim — no
non-negativity (or any sign) constraint is enforced anywhere. -/
theorem C5_theorem (d : ZDict) (t a : String) (rest : List ZValue) (l pos : Int) (now : Nat)
    (hT : zdictGet d "xesam:title" = some (.str t))
    (hA : zdictGet d "xesam:artist" = some (.array (.str a :: rest)))
    (hL : zdictGet d "mpris:length" = some (.int64 l)) :
    decode_metadata d pos now = .ok ⟨t, a, l, pos, now⟩ ∧
    get_cache (cache_write ⟨t, a, l, pos, now⟩) = .ok ⟨t, a, l, pos, now⟩ := by
  constructor
  · simp [decode_metadata, decodeFields_ok_of d t a rest l hT hA hL]
  · exact cache_roundtrip_aux _

/-- Claim C5 witness: the amended statement at a concrete mapping with
negative length and position. -/
theorem C5_witness :
    zdictGet dNegLen "mpris:length" = some (.int64 (-7)) ∧
    decode_metadata dNegLen (-50) 0 = .ok mNeg ∧
    get_cache (cache_write mNeg) = .ok mNeg := by
  have h := C5_theorem dNegLen "t" "a" [] (-7) (-50) 0 rfl rfl rfl
  exact ⟨rfl, h.1, h.2⟩

/-- Claim C6: for a cached record whose timestamp is not in the future,
the freshness test accepts exactly when now - timestamp < 3 s; a record
stamped now is fresh, a record 10 s old is stale, and a stale readable
cache makes get_metadata fetch the metadata property again. -/
theorem C6_theorem (now ts : Nat) (h : ts ≤ now) :
    (freshTest now ts = .ok true ↔ now - ts < 3000000000) ∧
    freshTest now now = .ok true ∧
    (10000000000 ≤ now → freshTest now (now - 10000000000) = .ok false) ∧
    (∀ w : World, ∀ m : Metadata, get_cache w.cache = .ok m →
      m.timestamp ≤ w.now → 3000000000 ≤ w.now - m.timestamp → w.connectOk = true →
      BusEvent.fetchMetadata ∈ (get_metadata none w).2.1) := by
  refine ⟨⟨?_, ?_⟩, ?_, ?_, ?_⟩
  · intro hf
    by_contra hge
    rw [freshTest_false now ts h (by omega)] at hf
    simp at hf
  · intro hlt
    exact freshTest_true now ts h hlt
  · exact freshTest_true now now (le_refl _) (by omega)
  · intro h10
    exact freshTest_false now (now - 10000000000) (by omega) (by omega)
  · intro w m hc hts hge hconn
    have hcc := cacheCheck_stale w m hc hts hge
    rw [get_metadata_none_conn w hconn]
    rcases hfp : metadataFetchPath w with ⟨r, evs, c⟩
    have hev : (getMetadataWith [BusEvent.connect, BusEvent.newProxy] w).2.1
        = [BusEvent.connect, BusEvent.newProxy] ++ evs := by
      simp [getMetadataWith, hcc, hfp]
    have hmem := metadataFetchPath_mem w
    rw [hfp] at hmem
    rw [hev]
    simp only [List.mem_append]
    exact Or.inr hmem

/-- Claim C6 witness: a 1 s old record is fresh and a 10 s old record is
stale, at concrete instants. -/
theorem C6_witness :
    (4000000000 : Nat) ≤ 5000000000 ∧
    freshTest 5000000000 4000000000 = .ok true ∧
    freshTest 20000000000 10000000000 = .ok false := by
  have h1 := C6_theorem 5000000000 4000000000 (by omega)
  have h2 := C6_theorem 20000000000 10000000000 (by omega)
  exact ⟨by omega, h1.1.mpr (by omega), h2.2.2.1 (by omega)⟩

/-- Claim C7: writing any Metadata record to the cache file and reading
it back yields a record equal to the original in all five fields. -/
theorem C7_theorem (m : Metadata) : get_cache (cache_write m) = .ok m :=
  cache_roundtrip_aux m

/-- Claim C8: get_song_name formats the facade record as
artist - title; on a facade Err it falls back to a direct cache read
and formats the cached record instead, propagating an error only when
that cache read fails too. -/
theorem C8_theorem (w : World) (m mc : Metadata) :
    ((get_metadata none w).1 = .ok m →
      (get_song_name w).1 = .ok (m.artist ++ " - " ++ m.title)) ∧
    ((get_metadata none w).1.isErr = true →
      get_cache (get_metadata none w).2.2 = .ok mc →
      (get_song_name w).1 = .ok (mc.artist ++ " - " ++ mc.title)) ∧
    ((get_metadata none w).1.isErr = true →
      exceptOk (get_cache (get_metadata none w).2.2) = false →
      (get_song_name w).1.isErr = true) := by
  rcases hw : get_metadata none w with ⟨r, evs, c⟩
  refine ⟨?_, ?_, ?_⟩
  · intro h
    have hr : r = .ok m := by simpa using h
    simp [get_song_name, hw, hr]
  · intro hE hC
    obtain ⟨e, he⟩ : ∃ e, r = .err e := by
      refine isErr_exists r ?_
      simpa using hE
    have hc2 : get_cache c = .ok mc := by simpa using hC
    simp [get_song_name, hw, he, hc2]
  · intro hE hC
    obtain ⟨e, he⟩ : ∃ e, r = .err e := by
      refine isErr_exists r ?_
      simpa using hE
    have hc2 : exceptOk (get_cache c) = false := by simpa using hC
    rcases hgc : get_cache c with e2 | m2
    · simp [get_song_name, hw, he, hgc, Outcome.isErr]
    · rw [hgc] at hc2
      simp [exceptOk] at hc2

/-- Claim C8 witness: with a future-stamped cache the facade fails, and
get_song_name still returns the formatted last cached record. -/
theorem C8_witness :
    (get_metadata none wFuture).1.isErr = true ∧
    (get_song_name wFuture).1 = .ok "Daft Punk - One More Time" := by
  have h := C8_theorem wFuture mFuture mFuture
  exact ⟨rfl, h.2.1 rfl rfl⟩

/-- Claim C9: a raw mapping with a valid title, a valid length and an
empty artist array drives the decoder's [0] index out of bounds: it
panics instead of taking any error branch. -/
theorem C9_theorem :
    decode_metadata dEmptyArtist 7 42 = .panic ∧
    (decode_metadata dEmptyArtist 7 42).isErr = false := ⟨rfl, rfl⟩

/-- Claim C10: a readable cache record stamped in the future makes
get_metadata propagate the elapsed-time error: no metadata or position
fetch happens and the cache file is untouched, whereas an unreadable
(missing or corrupt) cache always falls through to a metadata fetch. -/
theorem C10_theorem (w : World) (m : Metadata)
    (hc : get_cache w.cache = .ok m)
    (hfut : w.now < m.timestamp)
    (hconn : w.connectOk = true) :
    (get_metadata none w).1 = .err .systemTime ∧
    BusEvent.fetchMetadata ∉ (get_metadata none w).2.1 ∧
    BusEvent.fetchPosition ∉ (get_metadata none w).2.1 ∧
    (get_metadata none w).2.2 = w.cache ∧
    (∀ wr : World, wr.connectOk = true → exceptOk (get_cache wr.cache) = false →
      BusEvent.fetchMetadata ∈ (get_metadata none wr).2.1) := by
  have hcc := cacheCheck_future w m hc hfut
  have hg : get_metadata none w
      = (.err .systemTime, [.connect, .newProxy], w.cache) := by
    rw [get_metadata_none_conn w hconn]
    simp [getMetadataWith, hcc]
  rw [hg]
  refine ⟨rfl, by simp, by simp, rfl, ?_⟩
  intro wr hcr hbad
  rcases hgc : get_cache wr.cache with e2 | m2
  · have hcc2 := cacheCheck_unreadable wr e2 hgc
    rw [get_metadata_none_conn wr hcr]
    rcases hfp : metadataFetchPath wr with ⟨r, evs, c⟩
    have hev : (getMetadataWith [BusEvent.connect, BusEvent.newProxy] wr).2.1
        = [BusEvent.connect, BusEvent.newProxy] ++ evs := by
      simp [getMetadataWith, hcc2, hfp]
    have hmem := metadataFetchPath_mem wr
    rw [hfp] at hmem
    rw [hev]
    simp only [List.mem_append]
    exact Or.inr hmem
  · rw [hgc] at hbad
    simp [exceptOk] at hbad

/-- Claim C10 witness: a concrete future-stamped cache yields the
SystemTime error with no fetch, and a concrete absent cache is
refetched. -/
theorem C10_witness :
    get_cache wFuture.cache = .ok mFuture ∧
    wFuture.now < mFuture.timestamp ∧
    (get_metadata none wFuture).1 = .err .systemTime ∧
    BusEvent.fetchMetadata ∈ (get_metadata none wNoCache).2.1 := by
  have h := C10_theorem wFuture mFuture rfl (by decide) rfl
  exact ⟨rfl, by decide, h.1, h.2.2.2.2 wNoCache rfl rfl⟩

end SpotifyManage
